import Mathlib

/-!
Verification development for the tt-referee-sim engine.

The Python engine is shallowly embedded: floats become exact rationals
(every constant in the source is a finite decimal), mutable dataclasses
become immutable structures with functional update, and every call to the
process-global random generator is abstracted as an explicitly passed draw
value, constrained by the range the source requests from the generator.
The irrational square root in the camera model is abstracted as a function
parameter, since the properties proved here do not depend on its value.
-/

namespace TTRef

/-- Physical and table constants from engine/table.py, as exact rationals. -/
def TABLE_LENGTH : ℚ := 2.74

def TABLE_WIDTH : ℚ := 1.525

def TABLE_HEIGHT : ℚ := 0.76

def NET_HEIGHT : ℚ := 0.1525

def NET_OVERHANG : ℚ := 0.1525

def BALL_RADIUS : ℚ := 0.02

def RESTITUTION : ℚ := 0.89

def BALL_TABLE_FRICTION : ℚ := 0.25

def SPIN_DECAY_ON_BOUNCE : ℚ := 0.78

def GRAVITY : ℚ := 9.81

def EDGE_THRESHOLD : ℚ := 0.03

def OUT_OF_BOUNDS_MARGIN : ℚ := 1.5

/-- 3D vector from engine/types.py. -/
structure Vec3 where
  x : ℚ
  y : ℚ
  z : ℚ
deriving DecidableEq, Repr

/-- Full ball state from engine/types.py. -/
structure BallState where
  pos : Vec3
  vel : Vec3
  spin : Vec3
  alive : Bool
  t : ℚ
deriving DecidableEq, Repr

/-- BounceEvent from engine/types.py. -/
structure BounceEvent where
  pos : Vec3
  t : ℚ
  side : String
  is_edge : Bool
deriving DecidableEq, Repr

/-- NetEvent from engine/types.py. -/
structure NetEvent where
  pos : Vec3
  t : ℚ
  clipped : Bool
deriving DecidableEq, Repr

/-- OutEvent from engine/types.py. -/
structure OutEvent where
  pos : Vec3
  t : ℚ
deriving DecidableEq, Repr

/-- CameraFrame from engine/types.py. -/
structure CameraFrame where
  frame_num : ℕ
  t : ℚ
  pos_detected : Option Vec3
  confidence : ℚ
  blur_px : ℚ
  detected : Bool
deriving DecidableEq, Repr

/-- One record of Match.history, appended by score_point in engine/referee.py. -/
structure HistoryEntry where
  p1 : ℕ
  p2 : ℕ
  server : ℕ
  side : String
deriving DecidableEq, Repr

/-- Match state from engine/types.py. -/
structure Match where
  p1_score : ℕ
  p2_score : ℕ
  server : ℕ
  serve_count : ℕ
  history : List HistoryEntry
  deuce : Bool
  winner : Option ℕ
deriving DecidableEq, Repr

/-- create_match from engine/referee.py: Match() with dataclass defaults. -/
def create_match : Match :=
  { p1_score := 0, p2_score := 0, server := 1, serve_count := 0,
    history := [], deuce := false, winner := none }

/-- score_point from engine/referee.py lines 138-188. The Python function
copies the match, returns the copy unchanged when a winner is set, and
otherwise credits a point ("left" credits player 2, anything else player 1),
appends a history record, advances the serve counter with rotation interval
2 (1 under deuce, i.e. both post-point scores at least 10), and sets the
winner when a score reaches 11 with a lead of at least 2 (the two winner
checks run in sequence, the second able to overwrite the first). -/
def score_point (m0 : Match) (side : String) : Match :=
  if m0.winner.isSome then m0
  else
    let p1 := if side = "left" then m0.p1_score else m0.p1_score + 1
    let p2 := if side = "left" then m0.p2_score + 1 else m0.p2_score
    let hist := m0.history ++ [{ p1 := p1, p2 := p2, server := m0.server, side := side }]
    let sc := m0.serve_count + 1
    let deuce := decide (10 ≤ p1 ∧ 10 ≤ p2)
    let interval := if deuce then 1 else 2
    let rotated := decide (interval ≤ sc)
    let server := if rotated then (if m0.server = 1 then 2 else 1) else m0.server
    let sc := if rotated then 0 else sc
    let winner : Option ℕ := if 11 ≤ p1 ∧ p2 + 2 ≤ p1 then some 1 else none
    let winner := if 11 ≤ p2 ∧ p1 + 2 ≤ p2 then some 2 else winner
    { p1_score := p1, p2_score := p2, server := server, serve_count := sc,
      history := hist, deuce := deuce, winner := winner }

/-- Match states reachable from create_match by repeated score_point calls. -/
inductive Reachable : Match → Prop where
  | init : Reachable create_match
  | step (m : Match) (side : String) : Reachable m → Reachable (score_point m side)

/-- Fold a list of landing sides through score_point. -/
def playSides (sides : List String) (m : Match) : Match :=
  sides.foldl score_point m

/-- A concrete finished game: eleven straight points on the right side. -/
def demoMatch11 : Match := playSides (List.replicate 11 "right") create_match

/-- The check-table-bounce handler from engine/physics.py lines 60-112.
Each Python in-place mutation becomes one functional update, applied in the
source's order. -/
def check_table_bounce (prev curr : BallState) : BallState × List BounceEvent :=
  let bounce_z := TABLE_HEIGHT + BALL_RADIUS
  let half_l := TABLE_LENGTH / 2
  let half_w := TABLE_WIDTH / 2
  if prev.pos.z > bounce_z ∧ curr.pos.z ≤ bounce_z then
    if |curr.pos.x| ≤ half_l ∧ |curr.pos.y| ≤ half_w then
      let c1 := { curr with pos := { curr.pos with z := bounce_z },
                            vel := { curr.vel with z := -curr.vel.z * RESTITUTION } }
      let spin_velocity := c1.spin.y * BALL_RADIUS
      let c2 := { c1 with vel := { c1.vel with x := c1.vel.x + BALL_TABLE_FRICTION * spin_velocity } }
      let side_spin_vel := c2.spin.x * BALL_RADIUS
      let c3 := { c2 with vel := { c2.vel with y := c2.vel.y + BALL_TABLE_FRICTION * side_spin_vel * 0.5 } }
      let c4 :=
        if c3.spin.y * c3.vel.x > 0 then { c3 with vel := { c3.vel with z := c3.vel.z * 0.92 } }
        else if c3.spin.y * c3.vel.x < 0 then { c3 with vel := { c3.vel with z := c3.vel.z * 1.08 } }
        else c3
      let c5 := { c4 with vel := { c4.vel with x := c4.vel.x * 0.95, y := c4.vel.y * 0.95 } }
      let c6 := { c5 with spin := ⟨c5.spin.x * SPIN_DECAY_ON_BOUNCE,
                                   c5.spin.y * SPIN_DECAY_ON_BOUNCE,
                                   c5.spin.z * SPIN_DECAY_ON_BOUNCE⟩ }
      let side := if c6.pos.x < 0 then "left" else "right"
      let is_edge := decide (|(|c6.pos.x| - half_l)| < EDGE_THRESHOLD ∨
                             |(|c6.pos.y| - half_w)| < EDGE_THRESHOLD)
      (c6, [{ pos := c6.pos, t := c6.t, side := side, is_edge := is_edge }])
    else (curr, [])
  else (curr, [])

/-- The two draws the net-clip branch of check-net-collision requests from
the global random generator: random.random() and the uniform pop value used
by whichever clip sub-branch runs. -/
structure NetDraws where
  r : ℚ
  popUp : ℚ
  backUp : ℚ
deriving Repr

/-- The check-net-collision handler from engine/physics.py lines 115-163,
with the random draws of the clip branch passed explicitly. -/
def check_net_collision (d : NetDraws) (prev curr : BallState) : BallState × List NetEvent :=
  let half_w := TABLE_WIDTH / 2 + NET_OVERHANG
  let net_top := TABLE_HEIGHT + NET_HEIGHT
  let clip_zone_top := net_top + BALL_RADIUS
  let clip_zone_bottom := net_top - BALL_RADIUS
  let crossed := (prev.pos.x < 0 ∧ curr.pos.x ≥ 0) ∨ (prev.pos.x > 0 ∧ curr.pos.x ≤ 0)
  if ¬crossed then (curr, [])
  else if |curr.pos.y| > half_w then (curr, [])
  else if curr.pos.z < clip_zone_top then
    if curr.pos.z ≥ clip_zone_bottom then
      if d.r < 0.6 then
        ({ curr with vel := ⟨curr.vel.x * 0.10, curr.vel.y * 0.3, d.popUp⟩ },
         [{ pos := curr.pos, t := curr.t, clipped := true }])
      else
        ({ curr with vel := ⟨-curr.vel.x * 0.05, curr.vel.y, d.backUp⟩ },
         [{ pos := curr.pos, t := curr.t, clipped := true }])
    else
      let c := { curr with vel := (⟨0, 0, 0.05⟩ : Vec3),
                           pos := { curr.pos with x := prev.pos.x },
                           alive := false }
      (c, [{ pos := c.pos, t := c.t, clipped := false }])
  else (curr, [])

/-- The check-out-of-bounds handler from engine/physics.py lines 166-193. -/
def check_out_of_bounds (curr : BallState) : BallState × List OutEvent :=
  let half_l := TABLE_LENGTH / 2
  let half_w := TABLE_WIDTH / 2
  let step1 :=
    if curr.pos.z < BALL_RADIUS then
      if |curr.pos.x| ≤ half_l ∧ |curr.pos.y| ≤ half_w then
        ({ curr with pos := { curr.pos with z := BALL_RADIUS },
                     vel := { curr.vel with z := -curr.vel.z * 0.5 } },
         ([] : List OutEvent))
      else
        ({ curr with alive := false }, [{ pos := curr.pos, t := curr.t }])
    else (curr, [])
  let c := step1.1
  if |c.pos.x| > half_l + OUT_OF_BOUNDS_MARGIN ∨ |c.pos.y| > half_w + OUT_OF_BOUNDS_MARGIN then
    ({ c with alive := false }, step1.2 ++ [{ pos := c.pos, t := c.t }])
  else (c, step1.2)

/-- The frame filter every referee detector starts with: frames that are
detected and carry a position (engine/referee.py lines 76, 116). -/
def refDetectedFrames (frames : List CameraFrame) : List CameraFrame :=
  frames.filter (fun f => f.detected && f.pos_detected.isSome)

/-- Body of the detect-net scan for one consecutive triple of detected
frames (engine/referee.py lines 86-105); returns the events it appends. -/
def netEventAt (a b c : CameraFrame) : List NetEvent :=
  let bp := b.pos_detected.getD ⟨0, 0, 0⟩
  if |bp.x| < 0.15 then
    let dt_prev := b.t - a.t
    let dt_next := c.t - b.t
    if dt_prev > 0 ∧ dt_next > 0 then
      let vx_before := (bp.x - (a.pos_detected.getD ⟨0, 0, 0⟩).x) / dt_prev
      let vx_after := ((c.pos_detected.getD ⟨0, 0, 0⟩).x - bp.x) / dt_next
      if |vx_after| < |vx_before| * 0.5 ∨ (vx_before > 0 ∧ vx_after < 0) then
        [{ pos := bp, t := b.t, clipped := decide (bp.z > TABLE_HEIGHT + NET_HEIGHT * 0.8) }]
      else []
    else []
  else []

/-- The loop of detect_net over indices 1..len-2 of the detected-frame list,
phrased as a scan over consecutive triples. -/
def netScanTriples : List CameraFrame → List NetEvent
  | a :: b :: c :: rest => netEventAt a b c ++ netScanTriples (b :: c :: rest)
  | _ => []

/-- detect_net from engine/referee.py lines 70-107. -/
def detect_net (frames : List CameraFrame) : List NetEvent :=
  let d := refDetectedFrames frames
  if d.length < 3 then [] else netScanTriples d

/-- detect_out from engine/referee.py lines 110-135. The last-bounce-side
argument is accepted and ignored exactly as in the source. -/
def detect_out (frames : List CameraFrame) (lastBounceSide : Option String) : Bool :=
  let d := refDetectedFrames frames
  if d.length < 2 then false
  else
    let lastFew := if 3 ≤ d.length then d.drop (d.length - 3) else d
    let half_l := TABLE_LENGTH / 2
    let half_w := TABLE_WIDTH / 2
    lastFew.any fun f =>
      let p := f.pos_detected.getD ⟨0, 0, 0⟩
      decide (|p.x| > half_l + 0.1 ∨ |p.y| > half_w + 0.1 ∨ p.z < TABLE_HEIGHT - 0.1)

/-- One playstyle preset from engine/ai_player.py PLAYSTYLES. -/
structure Playstyle where
  label : String
  skill : ℚ
  power : ℚ
  consistency : ℚ
  spin_ability : ℚ
  speed : ℚ
  preferred_shots : List String
deriving Repr

/-- The PLAYSTYLES preset table from engine/ai_player.py lines 18-64, as a
lookup returning none for an unknown key (Python raises KeyError there). -/
def PLAYSTYLES (key : String) : Option Playstyle :=
  if key = "aggressive" then
    some { label := "Aggressive", skill := 0.80, power := 0.90, consistency := 0.65,
           spin_ability := 0.70, speed := 0.85,
           preferred_shots := ["smash", "fast_topspin", "medium_rally"] }
  else if key = "defensive" then
    some { label := "Defensive", skill := 0.75, power := 0.50, consistency := 0.90,
           spin_ability := 0.80, speed := 0.70,
           preferred_shots := ["backspin_chop", "slow_rally", "medium_rally"] }
  else if key = "allround" then
    some { label := "All-Round", skill := 0.78, power := 0.70, consistency := 0.78,
           spin_ability := 0.75, speed := 0.78,
           preferred_shots := ["medium_rally", "fast_topspin", "slow_rally"] }
  else if key = "beginner" then
    some { label := "Beginner", skill := 0.45, power := 0.40, consistency := 0.40,
           spin_ability := 0.20, speed := 0.50,
           preferred_shots := ["slow_rally", "slow_rally", "medium_rally"] }
  else if key = "pro" then
    some { label := "Professional", skill := 0.95, power := 0.85, consistency := 0.92,
           spin_ability := 0.95, speed := 0.92,
           preferred_shots := ["fast_topspin", "smash", "medium_rally", "backspin_chop"] }
  else none

/-- AIPlayer after its constructor copied the preset fields
(engine/ai_player.py lines 88-106). -/
structure AIPlayer where
  name : String
  side : ℤ
  playstyle : String
  label : String
  skill : ℚ
  power : ℚ
  consistency : ℚ
  spin_ability : ℚ
  speed : ℚ
  preferred_shots : List String
deriving Repr

/-- AIPlayer construction; none when the playstyle key is unknown. -/
def mkAIPlayer (name playstyle : String) (side : ℤ) : Option AIPlayer :=
  (PLAYSTYLES playstyle).map fun p =>
    { name := name, side := side, playstyle := playstyle, label := p.label,
      skill := p.skill, power := p.power, consistency := p.consistency,
      spin_ability := p.spin_ability, speed := p.speed,
      preferred_shots := p.preferred_shots }

/-- The values generate_serve requests from the global random generator, in
source order: gauss draws are unconstrained rationals, uniform draws carry
their range as hypotheses where a theorem needs them. -/
structure ServeDraws where
  gy : ℚ
  uz : ℚ
  uspeed : ℚ
  ufrac : ℚ
  gvz : ℚ
  gvy : ℚ
  uspin : ℚ
  rback : ℚ
  gspinx : ℚ
  rcons : ℚ
  gvz2 : ℚ
  gvy2 : ℚ
deriving Repr

/-- generate_serve from engine/ai_player.py lines 190-242, with random
draws passed explicitly. -/
def generate_serve (p : AIPlayer) (d : ServeDraws) : BallState :=
  let my_half : ℚ := if p.side = 1 then -1 else 1
  let target_dir := -my_half
  let start_x := my_half * (TABLE_LENGTH / 2 + 0.1)
  let start_y := d.gy
  let start_z := TABLE_HEIGHT + d.uz
  let base_speed := d.uspeed * (0.9 + p.power * 0.1)
  let vx := base_speed * target_dir
  let half_table := TABLE_LENGTH / 2
  let bounce_x := my_half * (half_table - d.ufrac * half_table)
  let dx := |bounce_x - start_x|
  let t_bounce := dx / max (|vx|) 1
  let target_z := TABLE_HEIGHT + BALL_RADIUS
  let vz := (target_z - start_z + 0.5 * GRAVITY * t_bounce ^ 2) / t_bounce
  let vz := vz + d.gvz
  let vy := d.gvy
  let spin_y := d.uspin * p.spin_ability * target_dir
  let spin_y := if d.rback < 0.3 then -spin_y * 0.5 else spin_y
  let spin_x := d.gspinx * p.spin_ability
  let vz := if d.rcons > p.consistency * 1.1 then vz + d.gvz2 else vz
  let vy := if d.rcons > p.consistency * 1.1 then vy + d.gvy2 else vy
  { pos := ⟨start_x, start_y, start_z⟩, vel := ⟨vx, vy, vz⟩,
    spin := ⟨spin_x, spin_y, 0⟩, alive := true, t := 0 }

/-- Default BallState, standing in for Python attribute access that the
guarding conditions make unreachable. -/
def defaultBall : BallState :=
  { pos := ⟨0, 0, 0⟩, vel := ⟨0, 0, 0⟩, spin := ⟨0, 0, 0⟩, alive := true, t := 0 }

/-- The binary-search loop of find-position-at-time (engine/camera.py
lines 42-47): narrows [lo, hi] to the leftmost index whose time is ≥ t. -/
def bsearchIdx (positions : List BallState) (t : ℚ) (lo hi : ℕ) : ℕ :=
  if h : lo < hi then
    if (positions.getD ((lo + hi) / 2) defaultBall).t < t then
      bsearchIdx positions t ((lo + hi) / 2 + 1) hi
    else
      bsearchIdx positions t lo ((lo + hi) / 2)
  else lo
termination_by hi - lo
decreasing_by
  omega
  omega

/-- find-position-at-time from engine/camera.py lines 37-48. -/
def findPositionAtTime (positions : List BallState) (t : ℚ) : Option BallState :=
  if positions.isEmpty then none
  else if t < (positions.headD defaultBall).t ∨ t > (positions.getLastD defaultBall).t then none
  else some (positions.getD (bsearchIdx positions t 0 (positions.length - 1)) defaultBall)

/-- One iteration of the simulate_camera sampling loop (engine/camera.py
lines 82-138) at sample index n, so at time n/fps (the Python accumulator
adds exact multiples of 1/fps). Returns none for the `continue` path where
no trajectory sample covers the time. The square root of the motion
magnitude is abstracted as sq; the per-frame random.random() draw is
rand n. -/
def cameraFrameAt (positions : List BallState) (fps : ℕ) (shutter_speed : ℚ)
    (resW : ℕ) (global_shutter : Bool) (sq : ℚ → ℚ) (rand : ℕ → ℚ) (n : ℕ) :
    Option CameraFrame :=
  let frame_interval : ℚ := 1 / fps
  let pix_per_meter : ℚ := resW / (TABLE_LENGTH + 1)
  let ball_px := BALL_RADIUS * 2 * pix_per_meter
  let t : ℚ := n * frame_interval
  match findPositionAtTime positions t with
  | none => none
  | some curr =>
    let prev_t := max 0 (t - frame_interval)
    let prev := (findPositionAtTime positions prev_t).getD curr
    let dx := curr.pos.x - prev.pos.x
    let dy := curr.pos.y - prev.pos.y
    let dz := curr.pos.z - prev.pos.z
    let motion_m := sq (dx ^ 2 + dy ^ 2 + dz ^ 2)
    let motion_px := motion_m * pix_per_meter
    let blur_frac := shutter_speed * fps
    let blur_px := if global_shutter then motion_px * blur_frac * 0.1 else motion_px * blur_frac
    let effective_ball_size := max (ball_px - blur_px * 0.5) 1
    let confidence :=
      if effective_ball_size < 2 then 0.10
      else if effective_ball_size < 4 then 0.40
      else if blur_px > ball_px * 3 then 0.20
      else if blur_px > ball_px * 1.5 then 0.60
      else min 0.99 (0.70 + effective_ball_size / 50)
    let detected := decide (rand n < confidence)
    some { frame_num := n, t := t,
           pos_detected := if detected then some curr.pos else none,
           confidence := confidence, blur_px := blur_px, detected := detected }

/-- simulate_camera from engine/camera.py lines 51-140. The while loop over
t < max_t in steps of 1/fps becomes a filterMap over the sample indices n
with n/fps < max_t. -/
def simulate_camera (positions : List BallState) (fps : ℕ) (shutter_speed : ℚ)
    (resolution : ℕ × ℕ) (global_shutter : Bool) (sq : ℚ → ℚ) (rand : ℕ → ℚ) :
    List CameraFrame :=
  if positions.isEmpty then []
  else
    let max_t := (positions.getLastD defaultBall).t
    let steps := (Int.ceil (max_t * fps)).toNat
    (List.range steps).filterMap
      (cameraFrameAt positions fps shutter_speed resolution.1 global_shutter sq rand)

/-- C1: for every Match whose winner is already set and every side string,
score_point is a no-op: every field of the returned Match equals the
corresponding field of the input. -/
theorem score_point_terminal_noop (m : Match) (side : String) (w : ℕ)
    (h : m.winner = some w) :
    (score_point m side).p1_score = m.p1_score ∧
    (score_point m side).p2_score = m.p2_score ∧
    (score_point m side).server = m.server ∧
    (score_point m side).serve_count = m.serve_count ∧
    (score_point m side).deuce = m.deuce ∧
    (score_point m side).winner = m.winner ∧
    (score_point m side).history = m.history := by
  have heq : score_point m side = m := by simp [score_point, h]
  rw [heq]
  exact ⟨rfl, rfl, rfl, rfl, rfl, rfl, rfl⟩

/-- Witness for C1 at a concrete terminal match. -/
theorem score_point_terminal_noop_witness :
    ({ p1_score := 11, p2_score := 5, server := 2, serve_count := 1, history := [],
       deuce := false, winner := some 1 } : Match).winner = some 1 ∧
    ((score_point { p1_score := 11, p2_score := 5, server := 2, serve_count := 1,
                    history := [], deuce := false, winner := some 1 } "left").p1_score = 11 ∧
     (score_point { p1_score := 11, p2_score := 5, server := 2, serve_count := 1,
                    history := [], deuce := false, winner := some 1 } "left").p2_score = 5) := by
  refine ⟨rfl, ?_⟩
  have h := score_point_terminal_noop
    { p1_score := 11, p2_score := 5, server := 2, serve_count := 1,
      history := [], deuce := false, winner := some 1 } "left" 1 rfl
  exact ⟨h.1, h.2.1⟩

/-- C6: a bounce processed by the table-bounce
check on a zero-spin ball reflects the vertical velocity by exactly the
restitution coefficient 0.89 and sets the height to table height plus ball
radius. -/
theorem bounce_restitution_zero_spin (prev curr : BallState)
    (hspin : curr.spin = ⟨0, 0, 0⟩)
    (habove : prev.pos.z > TABLE_HEIGHT + BALL_RADIUS)
    (hbelow : curr.pos.z ≤ TABLE_HEIGHT + BALL_RADIUS)
    (hx : |curr.pos.x| ≤ TABLE_LENGTH / 2)
    (hy : |curr.pos.y| ≤ TABLE_WIDTH / 2) :
    (check_table_bounce prev curr).1.vel.z = -curr.vel.z * RESTITUTION ∧
    (check_table_bounce prev curr).1.pos.z = TABLE_HEIGHT + BALL_RADIUS := by
  have hcross : prev.pos.z > TABLE_HEIGHT + BALL_RADIUS ∧
      curr.pos.z ≤ TABLE_HEIGHT + BALL_RADIUS := ⟨habove, hbelow⟩
  have hin : |curr.pos.x| ≤ TABLE_LENGTH / 2 ∧ |curr.pos.y| ≤ TABLE_WIDTH / 2 := ⟨hx, hy⟩
  simp only [check_table_bounce]
  rw [if_pos hcross, if_pos hin]
  simp [hspin]

/-- Witness for C6: a concrete zero-spin downward crossing. -/
theorem bounce_restitution_zero_spin_witness :
    (check_table_bounce { defaultBall with pos := ⟨0, 0, 1⟩ }
       { pos := ⟨0, 0, 0.78⟩, vel := ⟨2, 0, -3⟩, spin := ⟨0, 0, 0⟩, alive := true,
         t := 1 }).1.vel.z =
      -(-3 : ℚ) * RESTITUTION ∧
    (check_table_bounce { defaultBall with pos := ⟨0, 0, 1⟩ }
       { pos := ⟨0, 0, 0.78⟩, vel := ⟨2, 0, -3⟩, spin := ⟨0, 0, 0⟩, alive := true,
         t := 1 }).1.pos.z = TABLE_HEIGHT + BALL_RADIUS := by
  exact bounce_restitution_zero_spin _ _ rfl (by norm_num [TABLE_HEIGHT, BALL_RADIUS])
    (by norm_num [TABLE_HEIGHT, BALL_RADIUS]) (by norm_num [abs_le, TABLE_LENGTH])
    (by norm_num [abs_le, TABLE_WIDTH])

/-- C4 counterexample: a ball below floor height over the table is snapped
to ball-radius height (0.02), which is neither the table height nor table
height plus ball radius, so it is not snapped to the table surface height
as the claim states. -/
theorem oob_snap_counterexample :
    (check_out_of_bounds { pos := ⟨0, 0, 0.01⟩, vel := ⟨1, 0, -2⟩, spin := ⟨0, 0, 0⟩,
                           alive := true, t := 1 }).1.pos.z = BALL_RADIUS ∧
    (check_out_of_bounds { pos := ⟨0, 0, 0.01⟩, vel := ⟨1, 0, -2⟩, spin := ⟨0, 0, 0⟩,
                           alive := true, t := 1 }).1.pos.z ≠ TABLE_HEIGHT ∧
    (check_out_of_bounds { pos := ⟨0, 0, 0.01⟩, vel := ⟨1, 0, -2⟩, spin := ⟨0, 0, 0⟩,
                           alive := true, t := 1 }).1.pos.z ≠ TABLE_HEIGHT + BALL_RADIUS := by
  refine ⟨?_, ?_, ?_⟩ <;>
    norm_num [check_out_of_bounds, BALL_RADIUS, TABLE_HEIGHT, TABLE_LENGTH, TABLE_WIDTH,
      OUT_OF_BOUNDS_MARGIN, abs_le, abs_lt]

/-- C4 as amended: for a ball below floor height (pos.z below the ball
radius) while horizontally within table bounds, the out-of-bounds check
emits no OutEvent, leaves the alive flag unchanged, snaps the height to
the ball radius (floor-contact height), and applies the minor velocity
correction vz := -vz * 0.5. -/
theorem oob_on_table_snap (curr : BallState)
    (hz : curr.pos.z < BALL_RADIUS)
    (hx : |curr.pos.x| ≤ TABLE_LENGTH / 2)
    (hy : |curr.pos.y| ≤ TABLE_WIDTH / 2) :
    (check_out_of_bounds curr).2 = [] ∧
    (check_out_of_bounds curr).1.alive = curr.alive ∧
    (check_out_of_bounds curr).1.pos = ⟨curr.pos.x, curr.pos.y, BALL_RADIUS⟩ ∧
    (check_out_of_bounds curr).1.vel = ⟨curr.vel.x, curr.vel.y, -curr.vel.z * 0.5⟩ := by
  have hmargin : (0 : ℚ) ≤ OUT_OF_BOUNDS_MARGIN := by norm_num [OUT_OF_BOUNDS_MARGIN]
  have hin : |curr.pos.x| ≤ TABLE_LENGTH / 2 ∧ |curr.pos.y| ≤ TABLE_WIDTH / 2 := ⟨hx, hy⟩
  have hfar : ¬(|curr.pos.x| > TABLE_LENGTH / 2 + OUT_OF_BOUNDS_MARGIN ∨
      |curr.pos.y| > TABLE_WIDTH / 2 + OUT_OF_BOUNDS_MARGIN) := by
    push_neg
    constructor <;> linarith
  simp only [check_out_of_bounds]
  rw [if_pos hz, if_pos hin, if_neg hfar]
  exact ⟨rfl, rfl, rfl, rfl⟩

/-- Witness for the amended C4 at a concrete low ball over the table. -/
theorem oob_on_table_snap_witness :
    (check_out_of_bounds { pos := ⟨0.5, 0.2, 0.01⟩, vel := ⟨1, 1, -2⟩, spin := ⟨0, 0, 0⟩,
                           alive := true, t := 1 }).2 = [] ∧
    (check_out_of_bounds { pos := ⟨0.5, 0.2, 0.01⟩, vel := ⟨1, 1, -2⟩, spin := ⟨0, 0, 0⟩,
                           alive := true, t := 1 }).1.alive = true ∧
    (check_out_of_bounds { pos := ⟨0.5, 0.2, 0.01⟩, vel := ⟨1, 1, -2⟩, spin := ⟨0, 0, 0⟩,
                           alive := true, t := 1 }).1.pos = ⟨0.5, 0.2, BALL_RADIUS⟩ ∧
    (check_out_of_bounds { pos := ⟨0.5, 0.2, 0.01⟩, vel := ⟨1, 1, -2⟩, spin := ⟨0, 0, 0⟩,
                           alive := true, t := 1 }).1.vel = ⟨1, 1, -(-2 : ℚ) * 0.5⟩ := by
  exact oob_on_table_snap _ (by norm_num [BALL_RADIUS]) (by norm_num [abs_le, TABLE_LENGTH])
    (by norm_num [abs_le, TABLE_WIDTH])

/-- C5 counterexample: on a net body hit the velocity is not zeroed — the
vertical component is set to 0.05. -/
theorem net_body_hit_counterexample :
    (check_net_collision ⟨0, 0, 0⟩ { defaultBall with pos := ⟨-0.1, 0, 0.8⟩ }
       { pos := ⟨0.05, 0, 0.8⟩, vel := ⟨5, 0, -1⟩, spin := ⟨0, 0, 0⟩, alive := true,
         t := 2 }).1.vel.z = 0.05 ∧
    (check_net_collision ⟨0, 0, 0⟩ { defaultBall with pos := ⟨-0.1, 0, 0.8⟩ }
       { pos := ⟨0.05, 0, 0.8⟩, vel := ⟨5, 0, -1⟩, spin := ⟨0, 0, 0⟩, alive := true,
         t := 2 }).1.vel.z ≠ 0 := by
  refine ⟨?_, ?_⟩ <;>
    norm_num [check_net_collision, defaultBall, TABLE_WIDTH, NET_OVERHANG, TABLE_HEIGHT,
      NET_HEIGHT, BALL_RADIUS, abs_le, abs_lt]

/-- C5 as amended: a net body hit (crossing at the centerline, y within the
net span, height more than one ball radius below the net top) zeroes the
horizontal velocity components and sets the vertical component to 0.05,
snaps the ball back to the pre-crossing x position, marks it not alive,
and records exactly one NetEvent with clipped = false. -/
theorem net_body_hit (d : NetDraws) (prev curr : BallState)
    (hcross : (prev.pos.x < 0 ∧ curr.pos.x ≥ 0) ∨ (prev.pos.x > 0 ∧ curr.pos.x ≤ 0))
    (hy : |curr.pos.y| ≤ TABLE_WIDTH / 2 + NET_OVERHANG)
    (hz : curr.pos.z < TABLE_HEIGHT + NET_HEIGHT - BALL_RADIUS) :
    (check_net_collision d prev curr).1.vel = ⟨0, 0, 0.05⟩ ∧
    (check_net_collision d prev curr).1.pos.x = prev.pos.x ∧
    (check_net_collision d prev curr).1.alive = false ∧
    (check_net_collision d prev curr).2 =
      [{ pos := ⟨prev.pos.x, curr.pos.y, curr.pos.z⟩, t := curr.t, clipped := false }] := by
  have hztop : curr.pos.z < TABLE_HEIGHT + NET_HEIGHT + BALL_RADIUS := by
    have : (0 : ℚ) < BALL_RADIUS := by norm_num [BALL_RADIUS]
    linarith
  simp only [check_net_collision]
  rw [if_neg (not_not_intro hcross), if_neg (not_lt.mpr hy), if_pos hztop,
    if_neg (not_le.mpr hz)]
  exact ⟨rfl, rfl, rfl, rfl⟩

/-- Witness for the amended C5 at a concrete body hit. -/
theorem net_body_hit_witness :
    (check_net_collision ⟨0.7, 0.3, 0.1⟩ { defaultBall with pos := ⟨-0.1, 0, 0.8⟩ }
       { pos := ⟨0.05, 0.1, 0.8⟩, vel := ⟨5, 1, -1⟩, spin := ⟨0, 0, 0⟩, alive := true,
         t := 2 }).1.vel = ⟨0, 0, 0.05⟩ ∧
    (check_net_collision ⟨0.7, 0.3, 0.1⟩ { defaultBall with pos := ⟨-0.1, 0, 0.8⟩ }
       { pos := ⟨0.05, 0.1, 0.8⟩, vel := ⟨5, 1, -1⟩, spin := ⟨0, 0, 0⟩, alive := true,
         t := 2 }).1.pos.x = -0.1 ∧
    (check_net_collision ⟨0.7, 0.3, 0.1⟩ { defaultBall with pos := ⟨-0.1, 0, 0.8⟩ }
       { pos := ⟨0.05, 0.1, 0.8⟩, vel := ⟨5, 1, -1⟩, spin := ⟨0, 0, 0⟩, alive := true,
         t := 2 }).1.alive = false ∧
    (check_net_collision ⟨0.7, 0.3, 0.1⟩ { defaultBall with pos := ⟨-0.1, 0, 0.8⟩ }
       { pos := ⟨0.05, 0.1, 0.8⟩, vel := ⟨5, 1, -1⟩, spin := ⟨0, 0, 0⟩, alive := true,
         t := 2 }).2 =
      [{ pos := ⟨-0.1, 0.1, 0.8⟩, t := 2, clipped := false }] := by
  exact net_body_hit _ _ _ (Or.inl (by norm_num))
    (by norm_num [abs_le, TABLE_WIDTH, NET_OVERHANG])
    (by norm_num [TABLE_HEIGHT, NET_HEIGHT, BALL_RADIUS])

/-- Helper: playing any side list from a reachable match stays reachable. -/
theorem reachable_playSides (sides : List String) (m : Match) (hm : Reachable m) :
    Reachable (playSides sides m) := by
  induction sides generalizing m with
  | nil => exact hm
  | cons s rest ih => exact ih (score_point m s) (Reachable.step m s hm)

/-- Helper: every reachable match has serve_count 0 or 1. -/
theorem reachable_serve_count (m : Match) (hr : Reachable m) :
    m.serve_count = 0 ∨ m.serve_count = 1 := by
  induction hr with
  | init => exact Or.inl rfl
  | step m side _ ih =>
    by_cases h : m.winner.isSome
    · simpa [score_point, h] using ih
    · have hf : m.winner.isSome = false := by simpa using h
      simp only [score_point, hf, Bool.false_eq_true, if_false]
      split_ifs <;> simp_all

/-- C2: in every match state reachable from create_match by score_point
calls, a set winner holds score at least 11 and leads the other player by
at least 2. -/
theorem winner_margin (m : Match) (hr : Reachable m) :
    ∀ w, m.winner = some w →
      (w = 1 ∧ 11 ≤ m.p1_score ∧ m.p2_score + 2 ≤ m.p1_score) ∨
      (w = 2 ∧ 11 ≤ m.p2_score ∧ m.p1_score + 2 ≤ m.p2_score) := by
  induction hr with
  | init => intro w hw; simp [create_match] at hw
  | step m side _ ih =>
    intro w hw
    by_cases h : m.winner.isSome
    · have heq : score_point m side = m := by simp [score_point, h]
      rw [heq] at hw ⊢
      exact ih w hw
    · have hf : m.winner.isSome = false := by simpa using h
      simp only [score_point, hf, Bool.false_eq_true, if_false] at hw ⊢
      split_ifs at hw ⊢ <;>
        first
          | exact Option.noConfusion hw
          | (simp only [Option.some.injEq] at hw; subst hw; omega)

/-- Witness for C2 at a concrete finished eleven-point game. -/
theorem winner_margin_witness :
    (1 = 1 ∧ 11 ≤ demoMatch11.p1_score ∧ demoMatch11.p2_score + 2 ≤ demoMatch11.p1_score) ∨
    (1 = 2 ∧ 11 ≤ demoMatch11.p2_score ∧ demoMatch11.p1_score + 2 ≤ demoMatch11.p2_score) :=
  winner_margin demoMatch11 (reachable_playSides _ _ Reachable.init) 1 (by decide)

/-- C3: from any reachable match state with no winner yet, one score_point
call rotates the server exactly as the deuce rule demands, with deuce
evaluated on the post-point scores: if both post-point scores are at least
10 the server changes on this very point (and the counter resets); if not,
the server changes exactly when this is the second point since the last
rotation (serve_count = 1) and is kept with the counter advanced when it is
the first (serve_count = 0); the counter of a reachable state is always 0
or 1, so rotation happens after every 2 points pre-deuce and after every
point at deuce. -/
theorem serve_rotation_law (m : Match) (side : String) (hr : Reachable m)
    (hw : m.winner = none) :
    ((10 ≤ (score_point m side).p1_score ∧ 10 ≤ (score_point m side).p2_score) →
       (score_point m side).server ≠ m.server ∧ (score_point m side).serve_count = 0) ∧
    (¬(10 ≤ (score_point m side).p1_score ∧ 10 ≤ (score_point m side).p2_score) →
       (m.serve_count = 1 →
          (score_point m side).server ≠ m.server ∧ (score_point m side).serve_count = 0) ∧
       (m.serve_count = 0 →
          (score_point m side).server = m.server ∧
          (score_point m side).serve_count = m.serve_count + 1)) ∧
    (m.serve_count = 0 ∨ m.serve_count = 1) := by
  have hsc := reachable_serve_count m hr
  have hf : m.winner.isSome = false := by simp [hw]
  simp only [score_point, hf, Bool.false_eq_true, if_false]
  refine ⟨?_, ?_, hsc⟩ <;>
    · intro hd
      split_ifs at hd ⊢ <;>
        first
          | omega
          | (simp only [decide_eq_true_eq, and_true, true_and, and_false, false_and,
                imp_false, implies_true] at *; omega)

/-- Witness for C3 at the initial match state. -/
theorem serve_rotation_law_witness :
    ((10 ≤ (score_point create_match "right").p1_score ∧
        10 ≤ (score_point create_match "right").p2_score) →
       (score_point create_match "right").server ≠ create_match.server ∧
       (score_point create_match "right").serve_count = 0) ∧
    (¬(10 ≤ (score_point create_match "right").p1_score ∧
         10 ≤ (score_point create_match "right").p2_score) →
       (create_match.serve_count = 1 →
          (score_point create_match "right").server ≠ create_match.server ∧
          (score_point create_match "right").serve_count = 0) ∧
       (create_match.serve_count = 0 →
          (score_point create_match "right").server = create_match.server ∧
          (score_point create_match "right").serve_count = create_match.serve_count + 1)) ∧
    (create_match.serve_count = 0 ∨ create_match.serve_count = 1) :=
  serve_rotation_law create_match "right" Reachable.init rfl

/-- Helper: an event found by the triple scan on a list is still found
after one more frame is put in front. -/
theorem netScanTriples_cons (x : CameraFrame) (l : List CameraFrame) (e : NetEvent)
    (he : e ∈ netScanTriples l) : e ∈ netScanTriples (x :: l) := by
  match l with
  | a :: b :: c :: rest => exact List.mem_append_right _ he
  | [] => exact absurd he (List.not_mem_nil e)
  | [a] => exact absurd he (List.not_mem_nil e)
  | [a, b] => exact absurd he (List.not_mem_nil e)

/-- Helper: the triple scan over a list containing three consecutive
frames a, b, c reports every event the scan body reports for that triple. -/
theorem netScanTriples_mem_of_split (u v : List CameraFrame) (a b c : CameraFrame)
    (e : NetEvent) (he : e ∈ netEventAt a b c) :
    e ∈ netScanTriples (u ++ a :: b :: c :: v) := by
  induction u with
  | nil => exact List.mem_append_left _ he
  | cons x u ih => exact netScanTriples_cons x _ e ih

/-- C7 counterexample: three consecutive detected frames with positive time
gaps whose middle frame is near the net and whose finite-difference
horizontal velocity reverses from negative to positive with undiminished
magnitude produce no NetEvent, although the claim demands one for a
reversal in either direction of travel. -/
theorem detect_net_counterexample :
    detect_net
      [{ frame_num := 0, t := 0, pos_detected := some ⟨1.1, 0, 1⟩, confidence := 1,
         blur_px := 0, detected := true },
       { frame_num := 1, t := 1, pos_detected := some ⟨0.1, 0, 1⟩, confidence := 1,
         blur_px := 0, detected := true },
       { frame_num := 2, t := 2, pos_detected := some ⟨1.1, 0, 1⟩, confidence := 1,
         blur_px := 0, detected := true }] = [] := by
  norm_num [detect_net, refDetectedFrames, netScanTriples, netEventAt, List.filter,
    abs_lt, abs_of_nonneg, abs_of_nonpos]

/-- C7 as amended: for every triple of consecutive detected frames whose
middle frame lies near the net with positive time gaps, detect_net flags a
NetEvent at that frame when the after-speed drops below half the
before-speed, or when the finite-difference horizontal velocity reverses
from positive to negative; a negative-to-positive reversal is flagged
through the speed-drop disjunct only. -/
theorem detect_net_flags (frames u v : List CameraFrame) (a b c : CameraFrame)
    (hsplit : refDetectedFrames frames = u ++ a :: b :: c :: v)
    (hx : |(b.pos_detected.getD ⟨0, 0, 0⟩).x| < 0.15)
    (hp : b.t - a.t > 0) (hn : c.t - b.t > 0)
    (hflag :
      |((c.pos_detected.getD ⟨0, 0, 0⟩).x - (b.pos_detected.getD ⟨0, 0, 0⟩).x) / (c.t - b.t)| <
        |((b.pos_detected.getD ⟨0, 0, 0⟩).x - (a.pos_detected.getD ⟨0, 0, 0⟩).x) / (b.t - a.t)| * 0.5 ∨
      (((b.pos_detected.getD ⟨0, 0, 0⟩).x - (a.pos_detected.getD ⟨0, 0, 0⟩).x) / (b.t - a.t) > 0 ∧
       ((c.pos_detected.getD ⟨0, 0, 0⟩).x - (b.pos_detected.getD ⟨0, 0, 0⟩).x) / (c.t - b.t) < 0)) :
    ∃ e ∈ detect_net frames, e.t = b.t ∧ e.pos = b.pos_detected.getD ⟨0, 0, 0⟩ := by
  have hdt : b.t - a.t > 0 ∧ c.t - b.t > 0 := ⟨hp, hn⟩
  have hev :
      ({ pos := b.pos_detected.getD ⟨0, 0, 0⟩, t := b.t,
         clipped :=
           decide ((b.pos_detected.getD ⟨0, 0, 0⟩).z > TABLE_HEIGHT + NET_HEIGHT * 0.8) } :
        NetEvent) ∈ netEventAt a b c := by
    simp only [netEventAt]
    rw [if_pos hx, if_pos hdt, if_pos hflag]
    exact List.mem_singleton.mpr rfl
  have hlen : ¬(refDetectedFrames frames).length < 3 := by
    rw [hsplit]
    simp only [List.length_append, List.length_cons]
    omega
  refine ⟨{ pos := b.pos_detected.getD ⟨0, 0, 0⟩, t := b.t,
            clipped :=
              decide ((b.pos_detected.getD ⟨0, 0, 0⟩).z > TABLE_HEIGHT + NET_HEIGHT * 0.8) },
    ?_, rfl, rfl⟩
  simp only [detect_net]
  rw [if_neg hlen, hsplit]
  exact netScanTriples_mem_of_split u v a b c _ hev

/-- Witness for the amended C7: a positive-to-negative reversal at the net
is flagged. -/
theorem detect_net_flags_witness :
    ∃ e ∈ detect_net
      [{ frame_num := 0, t := 0, pos_detected := some ⟨-1.1, 0, 1⟩, confidence := 1,
         blur_px := 0, detected := true },
       { frame_num := 1, t := 1, pos_detected := some ⟨0.1, 0, 1⟩, confidence := 1,
         blur_px := 0, detected := true },
       { frame_num := 2, t := 2, pos_detected := some ⟨-1.1, 0, 1⟩, confidence := 1,
         blur_px := 0, detected := true }],
      e.t = 1 ∧ e.pos = ⟨0.1, 0, 1⟩ := by
  refine detect_net_flags _ [] []
    { frame_num := 0, t := 0, pos_detected := some ⟨-1.1, 0, 1⟩, confidence := 1,
      blur_px := 0, detected := true }
    { frame_num := 1, t := 1, pos_detected := some ⟨0.1, 0, 1⟩, confidence := 1,
      blur_px := 0, detected := true }
    { frame_num := 2, t := 2, pos_detected := some ⟨-1.1, 0, 1⟩, confidence := 1,
      blur_px := 0, detected := true }
    rfl ?_ (by norm_num) (by norm_num) (Or.inr ⟨?_, ?_⟩) <;>
    norm_num [Option.getD, abs_of_nonneg]

/-- C10: detect_out returns false whenever fewer than 2 frames are detected
with a position, whatever those frames contain. -/
theorem detect_out_needs_two (frames : List CameraFrame) (lastBounceSide : Option String)
    (h : (refDetectedFrames frames).length < 2) :
    detect_out frames lastBounceSide = false := by
  simp only [detect_out]
  rw [if_pos h]

/-- Witness for C10: a single detected frame far outside the table still
yields false. -/
theorem detect_out_needs_two_witness :
    (refDetectedFrames
      [{ frame_num := 0, t := 0, pos_detected := some ⟨100, 100, -5⟩, confidence := 1,
         blur_px := 0, detected := true }]).length < 2 ∧
    detect_out
      [{ frame_num := 0, t := 0, pos_detected := some ⟨100, 100, -5⟩, confidence := 1,
         blur_px := 0, detected := true }] none = false :=
  ⟨by simp [refDetectedFrames], detect_out_needs_two _ none (by simp [refDetectedFrames])⟩

/-- C8: for every player built from a playstyle preset and every outcome of
the random draws within the ranges the source requests (the serve-speed
uniform draw lies in [3.8, 5.2]), a side-1 player serves from x < 0 with
positive x-velocity and a side-2 player from x > 0 with negative
x-velocity. -/
theorem serve_direction (name key : String) (side : ℤ) (p : AIPlayer) (d : ServeDraws)
    (hp : mkAIPlayer name key side = some p)
    (hlo : 3.8 ≤ d.uspeed) (hhi : d.uspeed ≤ 5.2) :
    (side = 1 → (generate_serve p d).pos.x < 0 ∧ (generate_serve p d).vel.x > 0) ∧
    (side = 2 → (generate_serve p d).pos.x > 0 ∧ (generate_serve p d).vel.x < 0) := by
  simp only [mkAIPlayer, PLAYSTYLES] at hp
  split_ifs at hp <;>
    simp only [Option.map_some', Option.map_none', Option.some.injEq, reduceCtorEq] at hp <;>
    subst hp <;>
    refine ⟨fun hs => ?_, fun hs => ?_⟩ <;>
    subst hs <;>
    simp only [generate_serve] <;>
    norm_num [TABLE_LENGTH] <;>
    nlinarith

/-- Witness for C8 with the "pro" preset, side 1, and mid-range draws. -/
theorem serve_direction_witness :
    ((1 : ℤ) = 1 →
       (generate_serve
         { name := "s", side := 1, playstyle := "pro", label := "Professional",
           skill := 0.95, power := 0.85, consistency := 0.92, spin_ability := 0.95,
           speed := 0.92,
           preferred_shots := ["fast_topspin", "smash", "medium_rally", "backspin_chop"] }
         ⟨0, 0, 4, 0, 0, 0, 0, 0, 0, 0, 0, 0⟩).pos.x < 0 ∧
       (generate_serve
         { name := "s", side := 1, playstyle := "pro", label := "Professional",
           skill := 0.95, power := 0.85, consistency := 0.92, spin_ability := 0.95,
           speed := 0.92,
           preferred_shots := ["fast_topspin", "smash", "medium_rally", "backspin_chop"] }
         ⟨0, 0, 4, 0, 0, 0, 0, 0, 0, 0, 0, 0⟩).vel.x > 0) ∧
    ((1 : ℤ) = 2 →
       (generate_serve
         { name := "s", side := 1, playstyle := "pro", label := "Professional",
           skill := 0.95, power := 0.85, consistency := 0.92, spin_ability := 0.95,
           speed := 0.92,
           preferred_shots := ["fast_topspin", "smash", "medium_rally", "backspin_chop"] }
         ⟨0, 0, 4, 0, 0, 0, 0, 0, 0, 0, 0, 0⟩).pos.x > 0 ∧
       (generate_serve
         { name := "s", side := 1, playstyle := "pro", label := "Professional",
           skill := 0.95, power := 0.85, consistency := 0.92, spin_ability := 0.95,
           speed := 0.92,
           preferred_shots := ["fast_topspin", "smash", "medium_rally", "backspin_chop"] }
         ⟨0, 0, 4, 0, 0, 0, 0, 0, 0, 0, 0, 0⟩).vel.x < 0) :=
  serve_direction "s" "pro" 1 _ _ rfl (by norm_num) (by norm_num)

/-- Helper: at every sample index, the blur the global-shutter run records
is 0.1 times the blur the rolling-shutter run records, all other inputs
identical. -/
theorem cameraFrameAt_blur (positions : List BallState) (fps : ℕ) (shutter_speed : ℚ)
    (resW : ℕ) (sq : ℚ → ℚ) (rand : ℕ → ℚ) (n : ℕ) :
    Option.map CameraFrame.blur_px (cameraFrameAt positions fps shutter_speed resW true sq rand n)
    = Option.map (fun f => 0.1 * f.blur_px)
        (cameraFrameAt positions fps shutter_speed resW false sq rand n) := by
  simp only [cameraFrameAt]
  cases hfind : findPositionAtTime positions ((n : ℚ) * (1 / fps)) with
  | none => rfl
  | some curr =>
    simp only [Option.map_some']
    congr 1
    simp only [if_true, if_false]
    exact mul_comm _ _

/-- C9: for every trajectory, fps, shutter speed and resolution, the
motion-blur pixel extents simulate_camera records with a global shutter are
exactly 0.1 times those it records with a rolling shutter, frame for
frame. -/
theorem camera_global_shutter_blur (positions : List BallState) (fps : ℕ)
    (shutter_speed : ℚ) (resolution : ℕ × ℕ) (sq : ℚ → ℚ) (rand : ℕ → ℚ)
    (hfps : 0 < fps) :
    (simulate_camera positions fps shutter_speed resolution true sq rand).map
        CameraFrame.blur_px
    = (simulate_camera positions fps shutter_speed resolution false sq rand).map
        (fun f => 0.1 * f.blur_px) := by
  by_cases hempty : positions.isEmpty
  · simp [simulate_camera, hempty]
  · have hb : positions.isEmpty = false := by simpa using hempty
    simp only [simulate_camera, hb, Bool.false_eq_true, if_false]
    rw [List.map_filterMap, List.map_filterMap]
    congr 1
    funext n
    exact cameraFrameAt_blur positions fps shutter_speed resolution.1 sq rand n

/-- Witness for C9 on a concrete two-sample trajectory at 10 fps. -/
theorem camera_global_shutter_blur_witness :
    0 < 10 ∧
    (simulate_camera
      [{ pos := ⟨0, 0, 1⟩, vel := ⟨0, 0, 0⟩, spin := ⟨0, 0, 0⟩, alive := true, t := 0 },
       { pos := ⟨1, 0, 1⟩, vel := ⟨0, 0, 0⟩, spin := ⟨0, 0, 0⟩, alive := true, t := 0.3 }]
      10 (1 / 1000) (640, 480) true (fun q => q) (fun _ => 1)).map CameraFrame.blur_px
    = (simulate_camera
      [{ pos := ⟨0, 0, 1⟩, vel := ⟨0, 0, 0⟩, spin := ⟨0, 0, 0⟩, alive := true, t := 0 },
       { pos := ⟨1, 0, 1⟩, vel := ⟨0, 0, 0⟩, spin := ⟨0, 0, 0⟩, alive := true, t := 0.3 }]
      10 (1 / 1000) (640, 480) false (fun q => q) (fun _ => 1)).map
        (fun f => 0.1 * f.blur_px) :=
  ⟨by norm_num,
   camera_global_shutter_blur _ 10 (1 / 1000) (640, 480) (fun q => q) (fun _ => 1)
     (by norm_num)⟩

end TTRef
